import Mathlib

/-!
Shallow embedding of the chat-api services: users, channels, topics,
messages and follows.  Pure data is modelled with Lean structures, the
document store as an explicit list of records threaded through each
operation, and fallible actions return `Except` of a structured error
object.  Times are milliseconds since the Unix epoch as natural numbers.
-/

/-- Structured error object as produced by the service layer
(MoleculerClientError): a human-readable message, a numeric code and
field-level details as (field, message) pairs. -/
structure ErrObj where
  message : String
  code : Nat
  data : List (String × String)
deriving DecidableEq

/-- Modelled from the spec: the error library's client-error constructor
(external black box).  When no code is supplied the library default 400
applies. -/
def mkClientError (message : String) (code : Option Nat) : ErrObj :=
  { message := message, code := code.getD 400, data := [] }

/-! ## Users service (src/unnamed/part_000) -/

/-- A persisted user record.  `createdAt` is in epoch milliseconds;
`quantity` is forced to 0 by the create hook. -/
structure UserRecord where
  _id : String
  username : String
  password : String
  email : String
  bio : String
  image : String
  createdAt : Nat
  quantity : Nat
deriving DecidableEq

/-- Input entity for users.create.  Optional bio/image are modelled as
possibly-empty strings (the handler coerces falsy values). -/
structure NewUser where
  username : String
  password : String
  email : String
  bio : String
  image : String
deriving DecidableEq

/-- The character class of the username pattern [a-zA-Z0-9]. -/
def isAlnumAscii (c : Char) : Bool := c.isAlpha || c.isDigit

/-- Modelled from the spec: the validation-schema engine (external black
box) checking the users entityValidator: username is a string of length
at least 2 matching [a-zA-Z0-9]+, password has length at least 6, email
is a well-formed address (modelled as containing an @). -/
def validateUser (e : NewUser) : Bool :=
  decide (2 ≤ e.username.length) && e.username.data.all isAlnumAscii &&
  decide (6 ≤ e.password.length) && e.email.data.contains '@'

/-- Modelled from the spec: bcrypt password hashing (external black box),
modelled as a tagging function. -/
def bcryptHash (p : String) : String := "bcrypt$" ++ p

/-- Existence probe findOne by username. -/
def usernameExists (store : List UserRecord) (u : String) : Bool :=
  store.any (fun r => r.username == u)

/-- Existence probe findOne by email. -/
def emailExists (store : List UserRecord) (em : String) : Bool :=
  store.any (fun r => r.email == em)

/-- The record inserted by users.create for a fresh username/email. -/
def mkInsertedUser (e : NewUser) (newId : String) (now : Nat) : UserRecord :=
  { _id := newId, username := e.username, password := bcryptHash e.password,
    email := e.email, bio := e.bio, image := e.image, createdAt := now,
    quantity := 0 }

instance {ε α : Type} [DecidableEq ε] [DecidableEq α] : DecidableEq (Except ε α) :=
  fun a b =>
    match a, b with
    | .error e₁, .error e₂ =>
        if h : e₁ = e₂ then isTrue (by rw [h]) else isFalse (by simp [h])
    | .ok a₁, .ok a₂ =>
        if h : a₁ = a₂ then isTrue (by rw [h]) else isFalse (by simp [h])
    | .error _, .ok _ => isFalse (by simp)
    | .ok _, .error _ => isFalse (by simp)

/-- Result of users.create together with the store it leaves behind. -/
structure CreateUserOutcome where
  result : Except ErrObj UserRecord
  store : List UserRecord
deriving DecidableEq

/-- users.create: validate, probe username, probe email, then insert
(the probes are guarded by JS truthiness of the supplied fields). -/
def usersCreate (store : List UserRecord) (e : NewUser)
    (newId : String) (now : Nat) : CreateUserOutcome :=
  if ¬ validateUser e then
    { result := .error { message := "Parameters validation error!", code := 422,
                         data := [] },
      store := store }
  else if e.username != "" && usernameExists store e.username then
    { result := .error { message := "Username is exist!", code := 422,
                         data := [("username", "is exist")] },
      store := store }
  else if e.email != "" && emailExists store e.email then
    { result := .error { message := "Email is exist!", code := 422,
                         data := [("email", "is exist")] },
      store := store }
  else
    { result := .ok (mkInsertedUser e newId now),
      store := store ++ [mkInsertedUser e newId now] }

/-! ## JWT issuance and resolution -/

/-- The claim set of an issued token: user identifier, username and an
expiry in whole Unix seconds. -/
structure JwtClaims where
  id : String
  username : String
  exp : Nat
deriving DecidableEq

/-- A signed token: claims plus a signature.  Modelled from the spec: the
JWT signing primitive is an external black box; its signature is a digest
determined exactly by the signing secret and the claim set. -/
structure JwtToken where
  claims : JwtClaims
  sig : JwtClaims × String
deriving DecidableEq

/-- Modelled from the spec: jwt.sign over a claim set with a secret. -/
def jwtSign (secret : String) (c : JwtClaims) : JwtToken :=
  { claims := c, sig := (c, secret) }

/-- Modelled from the spec: jwt.verify checks the signature against the
secret and rejects tokens whose expiry is not in the future (current time
in whole Unix seconds). -/
def jwtVerify (secret : String) (nowSec : Nat) (t : JwtToken) : Bool :=
  t.sig == (t.claims, secret) && decide (nowSec < t.claims.exp)

/-- 60 days in milliseconds, the issuance-to-expiry distance. -/
def sixtyDaysMs : Nat := 60 * 24 * 60 * 60 * 1000

/-- generateJWT: claim set of the user's identifier, username and an
expiry 60 days from issuance, floored to whole Unix seconds. -/
def generateJWT (secret : String) (nowMs : Nat) (user : UserRecord) : JwtToken :=
  jwtSign secret
    { id := user._id, username := user.username,
      exp := (nowMs + sixtyDaysMs) / 1000 }

/-- getById on the users collection. -/
def getById (store : List UserRecord) (id : String) : Option UserRecord :=
  store.find? (fun u => u._id == id)

/-- users.resolveToken: verify the token, then when the decoded id is
truthy re-fetch the current user by identifier. -/
def resolveToken (store : List UserRecord) (secret : String) (nowMs : Nat)
    (token : JwtToken) : Except String (Option UserRecord) :=
  if jwtVerify secret (nowMs / 1000) token then
    if token.claims.id != "" then .ok (getById store token.claims.id)
    else .ok none
  else .error "jwt verify failed"

/-! ## Slug generation (channels.create, topics.create)

Both create handlers compute
slug(title, lower) ++ "-" ++ ((Math.random() * 36 ^ 6) | 0).toString(36).
The random draw is floor(random * 36 ^ 6), a natural number below 36 ^ 6;
the JS `| 0` truncates it to a signed 32-bit integer, and `toString(36)`
renders it in base 36 without padding, with a leading minus sign when the
value is negative. -/

/-- Modelled from the spec: the external slug library lower-cases the
title and hyphenates spaces. -/
def slugify (t : String) : String :=
  ⟨t.data.map (fun c => if c.toLower = ' ' then '-' else c.toLower)⟩

/-- JS ToInt32: reduce modulo 2 ^ 32, then map the upper half to
negative values. -/
def toInt32 (n : Nat) : Int :=
  if n % 2 ^ 32 < 2 ^ 31 then ((n % 2 ^ 32 : Nat) : Int)
  else ((n % 2 ^ 32 : Nat) : Int) - 2 ^ 32

/-- The base-36 digit alphabet 0-9 then a-z, as used by JS toString(36). -/
def digit36 (d : Nat) : Char :=
  if d < 10 then Char.ofNat (48 + d) else Char.ofNat (87 + d)

/-- Inverse of digit36 on the digit alphabet. -/
def val36 (c : Char) : Nat :=
  if c.toNat ≤ 57 then c.toNat - 48 else c.toNat - 87

/-- Little-endian base-36 digits of a natural number, fuel-recursive so
that it evaluates by kernel reduction. -/
def toBase36Digits : Nat → Nat → List Char
  | 0, _ => []
  | _ + 1, 0 => []
  | fuel + 1, n + 1 => digit36 ((n + 1) % 36) :: toBase36Digits fuel ((n + 1) / 36)

/-- JS Number.toString(36) for a natural number. -/
def toBase36 (n : Nat) : String :=
  if n = 0 then "0" else ⟨(toBase36Digits n n).reverse⟩

/-- JS Number.toString(36) for an integer: a minus sign followed by the
digits of the absolute value when negative. -/
def intToBase36 (i : Int) : String :=
  if i < 0 then "-" ++ toBase36 i.natAbs else toBase36 i.toNat

/-- The random slug suffix for a draw r = floor(random * 36 ^ 6). -/
def randSuffix (r : Nat) : String := intToBase36 (toInt32 r)

/-- The slug generated by channels.create and topics.create for a title
and a random draw. -/
def genSlug (title : String) (r : Nat) : String :=
  slugify title ++ "-" ++ randSuffix r

/-! ## Channels service (second document of src/services/user.service.ts) -/

/-- A persisted channel record. -/
structure ChannelRecord where
  _id : String
  title : String
  slug : String
  description : String
  creator : String
  createdAt : Nat
  updatedAt : Nat
deriving DecidableEq

/-- channels.findBySlug: findOne on the slug field. -/
def findBySlug (store : List ChannelRecord) (s : String) : Option ChannelRecord :=
  store.find? (fun c => c.slug == s)

/-- The partial fields accepted by channels.update. -/
structure ChannelUpdate where
  title : Option String
  description : Option String
deriving DecidableEq

/-- The $set update applied by channels.update: the supplied fields plus
a fresh updatedAt stamp. -/
def applySet (c : ChannelRecord) (nd : ChannelUpdate) (now : Nat) : ChannelRecord :=
  { c with title := nd.title.getD c.title,
           description := nd.description.getD c.description,
           updatedAt := now }

/-- Result of channels.update together with the store it leaves behind. -/
structure UpdateChannelOutcome where
  result : Except ErrObj ChannelRecord
  store : List ChannelRecord
deriving DecidableEq

/-- channels.update: find by slug (404 on a miss), reject with a code-500
error when the stored creator is not the caller, else updateById. -/
def channelsUpdate (store : List ChannelRecord) (slugParam : String)
    (nd : ChannelUpdate) (callerId : String) (now : Nat) : UpdateChannelOutcome :=
  match findBySlug store slugParam with
  | none =>
      { result := .error (mkClientError "Channel not found" (some 404)),
        store := store }
  | some ch =>
      if ch.creator != callerId then
        { result := .error (mkClientError ("This belong to " ++ ch.creator) (some 500)),
          store := store }
      else
        { result := .ok (applySet ch nd now),
          store := store.map (fun c => if c._id == ch._id then applySet ch nd now else c) }

/-! ## Follows service (src/services/follow.service.ts) -/

/-- A persisted follow (membership) record for a (channel, user) pair. -/
structure FollowRecord where
  _id : String
  channel : String
  user : String
  createdAt : Nat
deriving DecidableEq

/-- follows.findByChannelAndUser: findOne on the pair. -/
def findByChannelAndUser (store : List FollowRecord) (channel user : String) :
    Option FollowRecord :=
  store.find? (fun f => f.channel == channel && f.user == user)

/-- Result of a follows action: the action result, the store it leaves
behind and the kind-changed notifications it broadcast. -/
structure FollowOutcome where
  result : Except ErrObj FollowRecord
  store : List FollowRecord
  events : List String
deriving DecidableEq

/-- The record inserted by follows.add. -/
def mkFollow (channel user newId : String) (now : Nat) : FollowRecord :=
  { _id := newId, channel := channel, user := user, createdAt := now }

/-- follows.add: conflict when a record for the pair exists, else insert
one record and broadcast the follows kind-changed notification. -/
def followsAdd (store : List FollowRecord) (channel user newId : String)
    (now : Nat) : FollowOutcome :=
  match findByChannelAndUser store channel user with
  | some _ =>
      { result := .error (mkClientError "Channel has already joined" none),
        store := store, events := [] }
  | none =>
      { result := .ok (mkFollow channel user newId now),
        store := store ++ [mkFollow channel user newId now],
        events := ["cache.clean.follows"] }

/-- follows.delete: error when no record for the pair exists, else
removeById the found record and broadcast the follows kind-changed
notification. -/
def followsDelete (store : List FollowRecord) (channel user : String) :
    FollowOutcome :=
  match findByChannelAndUser store channel user with
  | none =>
      { result := .error (mkClientError "Channel has not joined yet" none),
        store := store, events := [] }
  | some item =>
      { result := .ok item,
        store := store.eraseP (fun f => f._id == item._id),
        events := ["cache.clean.follows"] }

/-! ## Paginated list operations -/

/-- The effective limit: JS truthiness of the supplied limit parameter,
with default page size 20 (an explicit 0 is falsy and selects the
default). -/
def effLimit (l : Option Nat) : Nat :=
  match l with
  | some n => if n = 0 then 20 else n
  | none => 20

/-- The effective offset: JS truthiness with default 0. -/
def effOffset (o : Option Nat) : Nat :=
  match o with
  | some n => n
  | none => 0

/-- Modelled from the spec: the document-store find primitive, as used by
the list handlers: filter by the query, sort by descending creation time,
then apply offset and limit. -/
def adapterFind {α : Type} (records : List α) (q : α → Bool)
    (createdAt : α → Nat) (limit offset : Nat) : List α :=
  (((records.filter q).mergeSort
      (fun a b => decide (createdAt b ≤ createdAt a))).drop offset).take limit

/-- Modelled from the spec: the document-store count primitive over the
same query with pagination removed. -/
def adapterCount {α : Type} (records : List α) (q : α → Bool) : Nat :=
  (records.filter q).length

/-- The list page and total produced by channels.list. -/
structure ChannelsListResult where
  channels : List ChannelRecord
  count : Nat
deriving DecidableEq

/-- channels.list: resolve an optional creator username through the users
service before the primary query (aborting when the lookup is empty,
with the library-default error code), then run the bounded find and the
unbounded count. -/
def channelsList (users : List UserRecord) (store : List ChannelRecord)
    (creator : Option String) (limit offset : Option Nat) :
    Except ErrObj ChannelsListResult :=
  let L := effLimit limit
  let O := effOffset offset
  if (creator.getD "") = "" then
    .ok { channels := adapterFind store (fun _ => true) (fun c => c.createdAt) L O,
          count := adapterCount store (fun _ => true) }
  else
    match users.filter (fun u => u.username == creator.getD "") with
    | [] => .error (mkClientError "Channel not found" none)
    | u :: _ =>
        .ok { channels := adapterFind store (fun c => c.creator == u._id)
                (fun c => c.createdAt) L O,
              count := adapterCount store (fun c => c.creator == u._id) }

/-- A persisted topic record. -/
structure TopicRecord where
  _id : String
  title : String
  slug : String
  description : String
  channel : String
  creator : String
  createdAt : Nat
  updatedAt : Nat
deriving DecidableEq

/-- The list page and total produced by topics.list (the total is keyed
topicCount). -/
structure TopicsListResult where
  topics : List TopicRecord
  topicCount : Nat
deriving DecidableEq

/-- topics.list: bounded find and unbounded count filtered by the parent
channel identifier. -/
def topicsList (store : List TopicRecord) (channel : String)
    (limit offset : Option Nat) : TopicsListResult :=
  { topics := adapterFind store (fun t => t.channel == channel)
      (fun t => t.createdAt) (effLimit limit) (effOffset offset),
    topicCount := adapterCount store (fun t => t.channel == channel) }

/-- A persisted message record. -/
structure MessageRecord where
  _id : String
  message : String
  topic : String
  creator : String
  createdAt : Nat
  updatedAt : Nat
deriving DecidableEq

/-- The list page and total produced by messages.list. -/
structure MessagesListResult where
  rows : List MessageRecord
  count : Nat
deriving DecidableEq

/-- messages.list: resolve an optional creator username through the users
service before the primary query (aborting when the lookup is empty,
with the library-default error code), then run the bounded find and the
unbounded count. -/
def messagesList (users : List UserRecord) (store : List MessageRecord)
    (creator : Option String) (limit offset : Option Nat) :
    Except ErrObj MessagesListResult :=
  let L := effLimit limit
  let O := effOffset offset
  if (creator.getD "") = "" then
    .ok { rows := adapterFind store (fun _ => true) (fun m => m.createdAt) L O,
          count := adapterCount store (fun _ => true) }
  else
    match users.filter (fun u => u.username == creator.getD "") with
    | [] => .error (mkClientError "Creator not found" none)
    | u :: _ =>
        .ok { rows := adapterFind store (fun m => m.creator == u._id)
                (fun m => m.createdAt) L O,
              count := adapterCount store (fun m => m.creator == u._id) }

/-! ## Result envelopes (transformResult of each service)

Each transformResult wraps a list input in an envelope under one key and
a single entity under another; the keys are literal in each service. -/

/-- A shaped response: a single entity or a list of entities under a
named envelope key. -/
inductive Shaped (α : Type) where
  | one (key : String) (value : α)
  | many (key : String) (values : List α)
deriving DecidableEq

/-- channels.transformResult: list input under key channels, single
entity under key channel. -/
def channelsTransformResult (input : Sum (List ChannelRecord) ChannelRecord) :
    Shaped ChannelRecord :=
  match input with
  | .inl l => .many "channels" l
  | .inr e => .one "channel" e

/-- topics.transformResult: list input under key topics, single entity
under key topic. -/
def topicsTransformResult (input : Sum (List TopicRecord) TopicRecord) :
    Shaped TopicRecord :=
  match input with
  | .inl l => .many "topics" l
  | .inr e => .one "topic" e

/-- messages.transformResult: list input under key channels, single
entity under key article. -/
def messagesTransformResult (input : Sum (List MessageRecord) MessageRecord) :
    Shaped MessageRecord :=
  match input with
  | .inl l => .many "channels" l
  | .inr e => .one "article" e

/-- follows.transformResult: list input under key channels, single entity
under key article. -/
def followsTransformResult (input : Sum (List FollowRecord) FollowRecord) :
    Shaped FollowRecord :=
  match input with
  | .inl l => .many "channels" l
  | .inr e => .one "article" e

/-! ## Cache-invalidation subscriptions

Each service's events block, as a list of (subscribed event name,
cleaned cache namespace pattern) pairs.  Every handler body is
broker.cacher.clean of its own service name followed by dot-star. -/

/-- The five kind-changed notifications named by the design. -/
def fiveKindEvents : List String :=
  ["cache.clean.users", "cache.clean.channels", "cache.clean.topics",
   "cache.clean.messages", "cache.clean.follows"]

/-- The users service events block of src/unnamed/part_000. -/
def usersEventsPart000 : List (String × String) :=
  [("cache.clean.channels", "users.*"), ("cache.clean.users", "users.*"),
   ("cache.clean.topics", "users.*"), ("cache.clean.follows", "users.*")]

/-- The users service events block of src/services/user.service.ts. -/
def usersEvents : List (String × String) :=
  [("cache.clean.users", "users.*"), ("cache.clean.follows", "users.*")]

/-- The channels service events block of src/services/user.service.ts. -/
def channelsEvents : List (String × String) :=
  [("cache.clean.channels", "channels.*"), ("cache.clean.users", "channels.*"),
   ("cache.clean.topics", "channels.*"), ("cache.clean.follows", "channels.*")]

/-- The topics service events block of src/services/topic.service.ts. -/
def topicsEvents : List (String × String) :=
  [("cache.clean.channels", "topics.*"), ("cache.clean.users", "topics.*"),
   ("cache.clean.topics", "topics.*"), ("cache.clean.follows", "topics.*")]

/-- The messages service events block of src/services/message.service.ts. -/
def messagesEvents : List (String × String) :=
  [("cache.clean.articles", "messages.*"), ("cache.clean.users", "messages.*"),
   ("cache.clean.comments", "messages.*"), ("cache.clean.follows", "messages.*"),
   ("cache.clean.favorites", "messages.*")]

/-- The follows service events block of src/services/follow.service.ts. -/
def followsEvents : List (String × String) :=
  [("cache.clean.channels", "follows.*"), ("cache.clean.users", "follows.*"),
   ("cache.clean.topics", "follows.*"), ("cache.clean.follows", "follows.*")]

/-! ## Theorems -/

/-- C1: users.create rejects a taken username with a structured error on
field username and message is-exist; otherwise it rejects a taken email
with the corresponding email error; when both are fresh it inserts the
user.  The username probe takes precedence over the email probe, and a
rejected probe leaves the store unchanged. -/
theorem users_create_uniqueness (store : List UserRecord) (e : NewUser)
    (newId : String) (now : Nat) (hv : validateUser e = true) :
    (usernameExists store e.username = true →
      usersCreate store e newId now =
        { result := .error { message := "Username is exist!", code := 422,
                             data := [("username", "is exist")] },
          store := store }) ∧
    (usernameExists store e.username = false →
      emailExists store e.email = true →
      usersCreate store e newId now =
        { result := .error { message := "Email is exist!", code := 422,
                             data := [("email", "is exist")] },
          store := store }) ∧
    (usernameExists store e.username = false →
      emailExists store e.email = false →
      usersCreate store e newId now =
        { result := .ok (mkInsertedUser e newId now),
          store := store ++ [mkInsertedUser e newId now] }) := by
  have hv' := hv
  simp only [validateUser, Bool.and_eq_true, decide_eq_true_eq] at hv'
  have hu : (e.username != "") = true := by
    rw [bne_iff_ne]
    intro h0
    have := hv'.1.1.1
    rw [h0] at this
    simp at this
  have he : (e.email != "") = true := by
    rw [bne_iff_ne]
    intro h0
    have := hv'.2
    rw [h0] at this
    exact absurd this (by decide)
  refine ⟨?_, ?_, ?_⟩
  · intro hx
    simp [usersCreate, hv, hu, hx]
  · intro hx hy
    simp [usersCreate, hv, hu, he, hx, hy]
  · intro hx hy
    simp [usersCreate, hv, hu, he, hx, hy]

/-- Concrete new-user input used by witnesses. -/
def demoNewUser : NewUser :=
  { username := "alice", password := "secret1", email := "a@x.com",
    bio := "", image := "" }

/-- Concrete stored user sharing demoNewUser's username. -/
def demoStoredUser : UserRecord :=
  { _id := "u1", username := "alice", password := "p", email := "b@y.com",
    bio := "", image := "", createdAt := 0, quantity := 0 }

/-- Witness for C1 at a concrete store and input. -/
theorem users_create_uniqueness_witness :
    usersCreate [demoStoredUser] demoNewUser "u2" 7 =
      { result := .error { message := "Username is exist!", code := 422,
                           data := [("username", "is exist")] },
        store := [demoStoredUser] } :=
  (users_create_uniqueness [demoStoredUser] demoNewUser "u2" 7 (by decide)).1
    (by decide)

/-- C10: an explicit limit of 0 is falsy, so the default page size 20 is
used, the list operations behave exactly as if limit were absent, and no
effective limit is ever 0. -/
theorem limit_zero_uses_default (users : List UserRecord)
    (chs : List ChannelRecord) (tps : List TopicRecord)
    (creator : Option String) (chanId : String) (offset : Option Nat) :
    effLimit (some 0) = 20 ∧ effLimit none = 20 ∧
    channelsList users chs creator (some 0) offset =
      channelsList users chs creator none offset ∧
    topicsList tps chanId (some 0) offset = topicsList tps chanId none offset ∧
    (∀ l : Option Nat, effLimit l ≠ 0) := by
  refine ⟨rfl, rfl, rfl, rfl, ?_⟩
  intro l
  match l with
  | none => simp [effLimit]
  | some 0 => simp [effLimit]
  | some (n + 1) => simp [effLimit]

/-- Concrete message record used by envelope theorems. -/
def demoMessage : MessageRecord :=
  { _id := "m1", message := "hi", topic := "t1", creator := "u1",
    createdAt := 0, updatedAt := 0 }

/-- C7 counterexample: messages.transformResult wraps a single result
under the key article, not message, and a list under the key channels,
not messages. -/
theorem messages_envelope_counterexample :
    messagesTransformResult (.inr demoMessage) = .one "article" demoMessage ∧
    "article" ≠ "message" ∧
    messagesTransformResult (.inl [demoMessage]) =
      .many "channels" [demoMessage] ∧
    "channels" ≠ "messages" :=
  ⟨rfl, by decide, rfl, by decide⟩

/-- C7 amended: channels and topics wrap results under their own kind;
messages and follows instead wrap a single result under the key article
and a list under the key channels. -/
theorem transform_result_envelopes (c : ChannelRecord)
    (cs : List ChannelRecord) (t : TopicRecord) (ts : List TopicRecord)
    (m : MessageRecord) (ms : List MessageRecord) (f : FollowRecord)
    (fs : List FollowRecord) :
    channelsTransformResult (.inr c) = .one "channel" c ∧
    channelsTransformResult (.inl cs) = .many "channels" cs ∧
    topicsTransformResult (.inr t) = .one "topic" t ∧
    topicsTransformResult (.inl ts) = .many "topics" ts ∧
    messagesTransformResult (.inr m) = .one "article" m ∧
    messagesTransformResult (.inl ms) = .many "channels" ms ∧
    followsTransformResult (.inr f) = .one "article" f ∧
    followsTransformResult (.inl fs) = .many "channels" fs :=
  ⟨rfl, rfl, rfl, rfl, rfl, rfl, rfl, rfl⟩

/-- C8 counterexample: no events block subscribes to a messages
kind-changed notification, so not every service subscribes to all five;
the messages service instead subscribes to leftover kinds (articles,
comments, favorites). -/
theorem events_subscription_counterexample :
    ("cache.clean.messages" ∈ messagesEvents.map Prod.fst) = False ∧
    ("cache.clean.messages" ∈ usersEvents.map Prod.fst) = False ∧
    ("cache.clean.messages" ∈ usersEventsPart000.map Prod.fst) = False ∧
    ("cache.clean.messages" ∈ channelsEvents.map Prod.fst) = False ∧
    ("cache.clean.messages" ∈ topicsEvents.map Prod.fst) = False ∧
    ("cache.clean.messages" ∈ followsEvents.map Prod.fst) = False ∧
    ("cache.clean.messages" ∈ fiveKindEvents) = True ∧
    ("cache.clean.articles" ∈ messagesEvents.map Prod.fst) = True ∧
    ("cache.clean.channels" ∈ usersEvents.map Prod.fst) = False := by
  refine ⟨?_, ?_, ?_, ?_, ?_, ?_, ?_, ?_, ?_⟩ <;> decide

/-- C8 amended: every handler of every events block flushes exactly its
own service's cache namespace; the subscription sets are four kinds
(channels, users, topics, follows) for the channels, topics and follows
services and the part_000 users service, two kinds (users, follows) for
the user.service.ts users service, and five leftover kinds (articles,
users, comments, follows, favorites) for the messages service; no
service subscribes to a messages kind-changed notification. -/
theorem events_flush_own_namespace :
    (∀ p ∈ usersEvents, p.2 = "users.*") ∧
    (∀ p ∈ usersEventsPart000, p.2 = "users.*") ∧
    (∀ p ∈ channelsEvents, p.2 = "channels.*") ∧
    (∀ p ∈ topicsEvents, p.2 = "topics.*") ∧
    (∀ p ∈ messagesEvents, p.2 = "messages.*") ∧
    (∀ p ∈ followsEvents, p.2 = "follows.*") ∧
    usersEvents.map Prod.fst = ["cache.clean.users", "cache.clean.follows"] ∧
    usersEventsPart000.map Prod.fst =
      ["cache.clean.channels", "cache.clean.users", "cache.clean.topics",
       "cache.clean.follows"] ∧
    channelsEvents.map Prod.fst =
      ["cache.clean.channels", "cache.clean.users", "cache.clean.topics",
       "cache.clean.follows"] ∧
    topicsEvents.map Prod.fst =
      ["cache.clean.channels", "cache.clean.users", "cache.clean.topics",
       "cache.clean.follows"] ∧
    messagesEvents.map Prod.fst =
      ["cache.clean.articles", "cache.clean.users", "cache.clean.comments",
       "cache.clean.follows", "cache.clean.favorites"] ∧
    followsEvents.map Prod.fst =
      ["cache.clean.channels", "cache.clean.users", "cache.clean.topics",
       "cache.clean.follows"] ∧
    (∀ p ∈ usersEvents ++ usersEventsPart000 ++ channelsEvents ++
        topicsEvents ++ messagesEvents ++ followsEvents,
      p.1 ≠ "cache.clean.messages") := by
  refine ⟨?_, ?_, ?_, ?_, ?_, ?_, ?_, ?_, ?_, ?_, ?_, ?_, ?_⟩ <;> decide

/-- C3: follows.add fails with the already-joined conflict when a record
for the (channel, user) pair exists and otherwise inserts exactly one
record and broadcasts a change event; follows.delete fails with the
not-joined error when no record exists and otherwise removes it and
broadcasts a change event; add then add fails on the second call, add
then delete then delete fails on the second delete, and every failure
leaves the stored records unchanged. -/
theorem follows_state_machine (store : List FollowRecord)
    (channel user newId newId2 : String) (now now2 : Nat)
    (hfresh : ∀ f ∈ store, f._id ≠ newId) :
    (∀ f, findByChannelAndUser store channel user = some f →
      followsAdd store channel user newId now =
        { result := .error (mkClientError "Channel has already joined" none),
          store := store, events := [] } ∧
      followsDelete store channel user =
        { result := .ok f, store := store.eraseP (fun g => g._id == f._id),
          events := ["cache.clean.follows"] }) ∧
    (findByChannelAndUser store channel user = none →
      followsAdd store channel user newId now =
        { result := .ok (mkFollow channel user newId now),
          store := store ++ [mkFollow channel user newId now],
          events := ["cache.clean.follows"] } ∧
      followsDelete store channel user =
        { result := .error (mkClientError "Channel has not joined yet" none),
          store := store, events := [] } ∧
      followsAdd (store ++ [mkFollow channel user newId now]) channel user
          newId2 now2 =
        { result := .error (mkClientError "Channel has already joined" none),
          store := store ++ [mkFollow channel user newId now], events := [] } ∧
      followsDelete (store ++ [mkFollow channel user newId now]) channel user =
        { result := .ok (mkFollow channel user newId now), store := store,
          events := ["cache.clean.follows"] }) := by
  constructor
  · intro f h
    exact ⟨by simp [followsAdd, h], by simp [followsDelete, h]⟩
  · intro h
    have hfind : findByChannelAndUser (store ++ [mkFollow channel user newId now])
        channel user = some (mkFollow channel user newId now) := by
      unfold findByChannelAndUser at h ⊢
      rw [List.find?_append, h]
      simp [mkFollow]
    have herase : (store ++ [mkFollow channel user newId now]).eraseP
        (fun g => g._id == (mkFollow channel user newId now)._id) = store := by
      rw [List.eraseP_append_right]
      · simp [mkFollow, List.eraseP]
      · intro b hb
        simp only [mkFollow, beq_iff_eq]
        exact hfresh b hb
    refine ⟨by simp [followsAdd, h], by simp [followsDelete, h],
      by simp [followsAdd, hfind], ?_⟩
    simp [followsDelete, hfind, herase]

/-- Witness for C3 starting from the empty store. -/
theorem follows_state_machine_witness :
    followsAdd [] "c1" "u1" "f1" 3 =
      { result := .ok (mkFollow "c1" "u1" "f1" 3),
        store := [mkFollow "c1" "u1" "f1" 3],
        events := ["cache.clean.follows"] } ∧
    followsDelete [] "c1" "u1" =
      { result := .error (mkClientError "Channel has not joined yet" none),
        store := [], events := [] } ∧
    followsAdd [mkFollow "c1" "u1" "f1" 3] "c1" "u1" "f2" 4 =
      { result := .error (mkClientError "Channel has already joined" none),
        store := [mkFollow "c1" "u1" "f1" 3], events := [] } ∧
    followsDelete [mkFollow "c1" "u1" "f1" 3] "c1" "u1" =
      { result := .ok (mkFollow "c1" "u1" "f1" 3), store := [],
        events := ["cache.clean.follows"] } :=
  (follows_state_machine [] "c1" "u1" "f1" "f2" 3 4 (by simp)).2 (by decide)

/-- C4: channels.update rejects with a 404 not-found error when no
channel has the slug; when the stored creator differs from the caller it
rejects with an error carrying the generic code 500 and leaves the store
unchanged; the update is applied only when the caller equals the stored
creator. -/
theorem channels_update_ownership (store : List ChannelRecord)
    (slugParam : String) (nd : ChannelUpdate) (callerId : String) (now : Nat) :
    (findBySlug store slugParam = none →
      channelsUpdate store slugParam nd callerId now =
        { result := .error (mkClientError "Channel not found" (some 404)),
          store := store }) ∧
    (∀ ch, findBySlug store slugParam = some ch → ch.creator ≠ callerId →
      channelsUpdate store slugParam nd callerId now =
        { result := .error
            (mkClientError ("This belong to " ++ ch.creator) (some 500)),
          store := store } ∧
      (mkClientError ("This belong to " ++ ch.creator) (some 500)).code = 500) ∧
    (∀ ch, findBySlug store slugParam = some ch → ch.creator = callerId →
      channelsUpdate store slugParam nd callerId now =
        { result := .ok (applySet ch nd now),
          store := store.map
            (fun c => if c._id == ch._id then applySet ch nd now else c) }) := by
  refine ⟨?_, ?_, ?_⟩
  · intro h
    simp [channelsUpdate, h]
  · intro ch h hne
    have hb : (ch.creator != callerId) = true := by rwa [bne_iff_ne]
    exact ⟨by simp [channelsUpdate, h, hb], rfl⟩
  · intro ch h heq
    subst heq
    simp [channelsUpdate, h]

/-- Concrete channel record used by witnesses. -/
def demoChannel : ChannelRecord :=
  { _id := "c1", title := "General", slug := "general-abc123",
    description := "d", creator := "u1", createdAt := 0, updatedAt := 0 }

/-- Witness for C4: an update by a non-creator is rejected with code 500
and the store is unchanged. -/
theorem channels_update_ownership_witness :
    channelsUpdate [demoChannel] "general-abc123" ⟨none, none⟩ "u2" 5 =
      { result := .error
          (mkClientError ("This belong to " ++ demoChannel.creator) (some 500)),
        store := [demoChannel] } ∧
    (mkClientError ("This belong to " ++ demoChannel.creator) (some 500)).code
      = 500 :=
  (channels_update_ownership [demoChannel] "general-abc123" ⟨none, none⟩
    "u2" 5).2.1 demoChannel (by decide) (by decide)

/-- C5: resolving a token issued for a user before its expiry returns the
user whose identifier equals the original (re-fetched by identifier); a
token whose signature does not verify, or an expired one, resolves to a
failure; the issued claim set is exactly the identifier, the username and
an expiry 60 days after issuance in whole Unix seconds. -/
theorem token_round_trip (store : List UserRecord) (secret : String)
    (u : UserRecord) (issueMs resolveMs : Nat) (hid : u._id ≠ "")
    (hfind : getById store u._id = some u)
    (hlive : resolveMs / 1000 < (issueMs + sixtyDaysMs) / 1000) :
    (generateJWT secret issueMs u).claims =
      { id := u._id, username := u.username,
        exp := (issueMs + sixtyDaysMs) / 1000 } ∧
    resolveToken store secret resolveMs (generateJWT secret issueMs u) =
      .ok (some u) ∧
    (∀ store' secret' ms tok, jwtVerify secret' (ms / 1000) tok = false →
      resolveToken store' secret' ms tok = .error "jwt verify failed") ∧
    (∀ ms, (issueMs + sixtyDaysMs) / 1000 ≤ ms / 1000 →
      resolveToken store secret ms (generateJWT secret issueMs u) =
        .error "jwt verify failed") := by
  refine ⟨rfl, ?_, ?_, ?_⟩
  · have hver : jwtVerify secret (resolveMs / 1000)
        (generateJWT secret issueMs u) = true := by
      simp [jwtVerify, generateJWT, jwtSign, hlive]
    have hid' : ((generateJWT secret issueMs u).claims.id != "") = true := by
      simp only [generateJWT, jwtSign, bne_iff_ne]
      exact hid
    simp only [resolveToken, hver, hid']
    simp [generateJWT, jwtSign, hfind]
  · intro store' secret' ms tok hv
    simp [resolveToken, hv]
  · intro ms hexp
    have hver : jwtVerify secret (ms / 1000)
        (generateJWT secret issueMs u) = false := by
      simp [jwtVerify, generateJWT, jwtSign]
      omega
    simp [resolveToken, hver]

/-- Witness for C5: the round trip at a concrete user and store. -/
theorem token_round_trip_witness :
    (generateJWT "jwt-conduit-secret" 0 demoStoredUser).claims =
      { id := demoStoredUser._id, username := demoStoredUser.username,
        exp := (0 + sixtyDaysMs) / 1000 } ∧
    resolveToken [demoStoredUser] "jwt-conduit-secret" 1000
        (generateJWT "jwt-conduit-secret" 0 demoStoredUser) =
      .ok (some demoStoredUser) :=
  ⟨(token_round_trip [demoStoredUser] "jwt-conduit-secret" demoStoredUser 0
      1000 (by decide) (by decide) (by decide)).1,
   (token_round_trip [demoStoredUser] "jwt-conduit-secret" demoStoredUser 0
      1000 (by decide) (by decide) (by decide)).2.1⟩

/-- C9 counterexample: an empty creator resolution aborts the list with a
not-found client error, but the error is constructed without a code, so
it carries the library default 400, not 404. -/
theorem creator_filter_code_counterexample :
    channelsList [] [] (some "ghost") none none =
      .error { message := "Channel not found", code := 400, data := [] } ∧
    messagesList [] [] (some "ghost") none none =
      .error { message := "Creator not found", code := 400, data := [] } ∧
    (400 : Nat) ≠ 404 :=
  ⟨rfl, rfl, by decide⟩

/-- C9 amended: a creator-username filter is resolved through the users
service before the primary query; an empty resolution aborts the list
with a not-found client error rather than an empty success, and the
error carries the library-default code 400, not 404. -/
theorem creator_filter_resolution (users : List UserRecord)
    (chs : List ChannelRecord) (msgs : List MessageRecord) (name : String)
    (limit offset : Option Nat) (hname : name ≠ "")
    (hmiss : users.filter (fun u => u.username == name) = []) :
    channelsList users chs (some name) limit offset =
      .error (mkClientError "Channel not found" none) ∧
    messagesList users msgs (some name) limit offset =
      .error (mkClientError "Creator not found" none) ∧
    (mkClientError "Channel not found" none).code = 400 ∧
    (mkClientError "Creator not found" none).code = 400 := by
  refine ⟨?_, ?_, rfl, rfl⟩
  · simp [channelsList, hname, hmiss]
  · simp [messagesList, hname, hmiss]

/-- Witness for C9 at a concrete store missing the requested creator. -/
theorem creator_filter_resolution_witness :
    channelsList [demoStoredUser] [] (some "ghost") none none =
      .error (mkClientError "Channel not found" none) ∧
    messagesList [demoStoredUser] [] (some "ghost") none none =
      .error (mkClientError "Creator not found" none) ∧
    (mkClientError "Channel not found" none).code = 400 ∧
    (mkClientError "Creator not found" none).code = 400 :=
  creator_filter_resolution [demoStoredUser] [] [] "ghost" none none
    (by decide) (by decide)

/-- The page returned by the find primitive has length
min(limit, totalMatching - offset). -/
theorem adapterFind_length {α : Type} (records : List α) (q : α → Bool)
    (createdAt : α → Nat) (L O : Nat) :
    (adapterFind records q createdAt L O).length =
      min L ((records.filter q).length - O) := by
  simp [adapterFind, List.length_take, List.length_drop, List.length_mergeSort]

/-- The page returned by the find primitive is ordered by descending
creation time. -/
theorem adapterFind_sorted {α : Type} (records : List α) (q : α → Bool)
    (createdAt : α → Nat) (L O : Nat) :
    (adapterFind records q createdAt L O).Pairwise
      (fun a b => createdAt b ≤ createdAt a) := by
  have htrans : ∀ a b c : α,
      (fun a b => decide (createdAt b ≤ createdAt a)) a b = true →
      (fun a b => decide (createdAt b ≤ createdAt a)) b c = true →
      (fun a b => decide (createdAt b ≤ createdAt a)) a c = true := by
    intro a b c hab hbc
    simp only [decide_eq_true_eq] at hab hbc ⊢
    omega
  have htotal : ∀ a b : α,
      ((fun a b => decide (createdAt b ≤ createdAt a)) a b ||
        (fun a b => decide (createdAt b ≤ createdAt a)) b a) = true := by
    intro a b
    simp only [Bool.or_eq_true, decide_eq_true_eq]
    omega
  have hs := List.sorted_mergeSort htrans htotal (records.filter q)
  have hp : ((records.filter q).mergeSort
      (fun a b => decide (createdAt b ≤ createdAt a))).Pairwise
      (fun a b => createdAt b ≤ createdAt a) :=
    hs.imp (fun h => of_decide_eq_true h)
  have hsub : ((((records.filter q).mergeSort
      (fun a b => decide (createdAt b ≤ createdAt a))).drop O).take L).Sublist
      ((records.filter q).mergeSort
        (fun a b => decide (createdAt b ≤ createdAt a))) :=
    (List.take_sublist _ _).trans (List.drop_sublist _ _)
  simpa [adapterFind] using List.Pairwise.sublist hsub hp

/-- C6: channels.list and topics.list return a page of length
min(limit, totalMatching - offset) ordered by descending creation time,
together with a count equal to the total matching the filter and
independent of limit and offset; an omitted limit defaults to 20 and an
omitted offset to 0. -/
theorem lists_pagination (users : List UserRecord) (chs : List ChannelRecord)
    (tps : List TopicRecord) (chanId : String) (limit offset : Option Nat) :
    (∃ r, channelsList users chs none limit offset = .ok r ∧
      r.channels.length =
        min (effLimit limit) (chs.length - effOffset offset) ∧
      r.channels.Pairwise (fun a b => b.createdAt ≤ a.createdAt) ∧
      r.count = chs.length) ∧
    ((topicsList tps chanId limit offset).topics.length =
      min (effLimit limit)
        ((tps.filter (fun t => t.channel == chanId)).length -
          effOffset offset) ∧
     (topicsList tps chanId limit offset).topics.Pairwise
       (fun a b => b.createdAt ≤ a.createdAt) ∧
     (topicsList tps chanId limit offset).topicCount =
       (tps.filter (fun t => t.channel == chanId)).length) ∧
    effLimit none = 20 ∧ effOffset none = 0 := by
  refine ⟨⟨_, rfl, ?_, ?_, ?_⟩, ⟨?_, ?_, ?_⟩, rfl, rfl⟩
  · simpa using adapterFind_length chs (fun _ => true) (fun c => c.createdAt)
      (effLimit limit) (effOffset offset)
  · exact adapterFind_sorted chs (fun _ => true) (fun c => c.createdAt)
      (effLimit limit) (effOffset offset)
  · simp [adapterCount]
  · exact adapterFind_length tps (fun t => t.channel == chanId)
      (fun t => t.createdAt) (effLimit limit) (effOffset offset)
  · exact adapterFind_sorted tps (fun t => t.channel == chanId)
      (fun t => t.createdAt) (effLimit limit) (effOffset offset)
  · rfl

/-- digit36 is inverted by val36 on the base-36 digit range. -/
theorem val36_digit36 : ∀ d, d < 36 → val36 (digit36 d) = d := by decide

/-- No base-36 digit is the minus sign. -/
theorem digit36_ne_dash : ∀ d, d < 36 → digit36 d ≠ '-' := by decide

/-- The fuel-recursive digit list agrees with Nat.digits. -/
theorem toBase36Digits_eq : ∀ (fuel n : Nat), n ≤ fuel →
    toBase36Digits fuel n = (Nat.digits 36 n).map digit36 := by
  intro fuel
  induction fuel with
  | zero =>
    intro n h
    interval_cases n
    simp [toBase36Digits]
  | succ f ih =>
    intro n h
    match n with
    | 0 => simp [toBase36Digits]
    | m + 1 =>
      rw [show toBase36Digits (f + 1) (m + 1) =
        digit36 ((m + 1) % 36) :: toBase36Digits f ((m + 1) / 36) from rfl]
      rw [Nat.digits_def' (by norm_num : (1:ℕ) < 36) (Nat.succ_pos m)]
      rw [List.map_cons]
      congr 1
      apply ih
      have hlt : (m + 1) / 36 < m + 1 :=
        Nat.div_lt_self (Nat.succ_pos m) (by norm_num)
      omega

/-- The character data of toBase36 for a nonzero argument. -/
theorem toBase36_data (n : Nat) (h : n ≠ 0) :
    (toBase36 n).data = ((Nat.digits 36 n).map digit36).reverse := by
  rw [toBase36, if_neg h]
  show (toBase36Digits n n).reverse = _
  rw [toBase36Digits_eq n n le_rfl]

/-- The length of toBase36 for a nonzero argument is the digit count. -/
theorem toBase36_length_eq (n : Nat) (h : n ≠ 0) :
    (toBase36 n).length = (Nat.digits 36 n).length := by
  show (toBase36 n).data.length = _
  rw [toBase36_data n h]
  simp

/-- toBase36 always renders at least one character. -/
theorem toBase36_length_pos (n : Nat) : 1 ≤ (toBase36 n).length := by
  by_cases h : n = 0
  · subst h; decide
  · rw [toBase36_length_eq n h]
    exact List.length_pos.mpr (Nat.digits_ne_nil_iff_ne_zero.mpr h)

/-- Below 36 ^ 6, toBase36 renders at most six characters. -/
theorem toBase36_length_le (n : Nat) (h : n < 36 ^ 6) :
    (toBase36 n).length ≤ 6 := by
  by_cases h0 : n = 0
  · subst h0; decide
  · rw [toBase36_length_eq n h0, Nat.digits_len 36 n (by norm_num) h0]
    have := Nat.log_lt_of_lt_pow h0 h
    omega

/-- Only zero renders as the single digit 0. -/
theorem toBase36_eq_zero_str {n : Nat} (h : toBase36 n = "0") : n = 0 := by
  by_contra hn
  have hd := congrArg String.data h
  rw [toBase36_data n hn] at hd
  have hmap : (Nat.digits 36 n).map digit36 = ['0'] := by
    have := congrArg List.reverse hd
    simpa using this
  cases hdig : Nat.digits 36 n with
  | nil => rw [hdig] at hmap; simp at hmap
  | cons a t =>
    rw [hdig] at hmap
    simp only [List.map_cons, List.cons.injEq] at hmap
    have ht : t = [] := List.map_eq_nil_iff.mp hmap.2
    have ha36 : a < 36 :=
      Nat.digits_lt_base (by norm_num) (hdig ▸ List.mem_cons_self a t)
    have ha0 : a = 0 := by
      have hv := val36_digit36 a ha36
      rw [hmap.1] at hv
      simpa using hv.symm
    have hofd := Nat.ofDigits_digits 36 n
    rw [hdig, ht, ha0] at hofd
    simp [Nat.ofDigits] at hofd
    exact hn hofd.symm

/-- toBase36 is injective. -/
theorem toBase36_inj {m n : Nat} (h : toBase36 m = toBase36 n) : m = n := by
  by_cases hm : m = 0 <;> by_cases hn : n = 0
  · omega
  · subst hm
    exact absurd (toBase36_eq_zero_str h.symm) hn
  · subst hn
    exact absurd (toBase36_eq_zero_str h) hm
  · have hd := congrArg String.data h
    rw [toBase36_data m hm, toBase36_data n hn] at hd
    have hmap := List.reverse_injective hd
    have h2 := congrArg (List.map val36) hmap
    rw [List.map_map, List.map_map] at h2
    have e1 : (Nat.digits 36 m).map (val36 ∘ digit36) = Nat.digits 36 m := by
      rw [show (Nat.digits 36 m).map (val36 ∘ digit36) =
          (Nat.digits 36 m).map id from
        List.map_congr_left (fun x hx =>
          val36_digit36 x (Nat.digits_lt_base (by norm_num) hx))]
      exact List.map_id _
    have e2 : (Nat.digits 36 n).map (val36 ∘ digit36) = Nat.digits 36 n := by
      rw [show (Nat.digits 36 n).map (val36 ∘ digit36) =
          (Nat.digits 36 n).map id from
        List.map_congr_left (fun x hx =>
          val36_digit36 x (Nat.digits_lt_base (by norm_num) hx))]
      exact List.map_id _
    have hdig : Nat.digits 36 m = Nat.digits 36 n := by
      rw [← e1, ← e2, h2]
    rw [← Nat.ofDigits_digits 36 m, ← Nat.ofDigits_digits 36 n, hdig]

/-- The minus sign never occurs in toBase36 output. -/
theorem dash_not_mem_toBase36 (n : Nat) : '-' ∉ (toBase36 n).data := by
  by_cases h : n = 0
  · subst h; decide
  · rw [toBase36_data n h]
    intro hmem
    rw [List.mem_reverse] at hmem
    obtain ⟨d, hd, he⟩ := List.mem_map.mp hmem
    exact digit36_ne_dash d (Nat.digits_lt_base (by norm_num) hd) he

/-- intToBase36 is injective. -/
theorem intToBase36_inj {i j : Int} (h : intToBase36 i = intToBase36 j) :
    i = j := by
  unfold intToBase36 at h
  split_ifs at h with hi hj hj
  · have hab : toBase36 i.natAbs = toBase36 j.natAbs := by
      have hd := congrArg String.data h
      simp only [String.data_append] at hd
      exact String.ext (List.append_cancel_left hd)
    have := toBase36_inj hab
    omega
  · exfalso
    have hd := congrArg String.data h
    simp only [String.data_append] at hd
    have hmem : '-' ∈ (toBase36 j.toNat).data := by
      rw [← hd]
      exact List.mem_append_left _ (by decide)
    exact dash_not_mem_toBase36 _ hmem
  · exfalso
    have hd := congrArg String.data h.symm
    simp only [String.data_append] at hd
    have hmem : '-' ∈ (toBase36 i.toNat).data := by
      rw [← hd]
      exact List.mem_append_left _ (by decide)
    exact dash_not_mem_toBase36 _ hmem
  · have := toBase36_inj h
    omega

/-- JS ToInt32 is injective below 2 ^ 32. -/
theorem toInt32_inj {a b : Nat} (ha : a < 2 ^ 32) (hb : b < 2 ^ 32)
    (h : toInt32 a = toInt32 b) : a = b := by
  unfold toInt32 at h
  rw [Nat.mod_eq_of_lt ha, Nat.mod_eq_of_lt hb] at h
  split_ifs at h <;> omega

/-- The random suffix has between one and seven characters, never a
fixed six. -/
theorem randSuffix_length {r : Nat} (h : r < 36 ^ 6) :
    1 ≤ (randSuffix r).length ∧ (randSuffix r).length ≤ 7 := by
  have h36 : (36:ℕ) ^ 6 < 2 ^ 32 := by norm_num
  have h32 : r < 2 ^ 32 := by omega
  unfold randSuffix toInt32
  rw [Nat.mod_eq_of_lt h32]
  by_cases h31 : r < 2 ^ 31
  · rw [if_pos h31]
    rw [intToBase36, if_neg (by omega)]
    rw [show ((r : Int)).toNat = r by omega]
    exact ⟨toBase36_length_pos r, le_trans (toBase36_length_le r h) (by omega)⟩
  · rw [if_neg h31]
    have hlt : ((r : Int) - 2 ^ 32) < 0 := by omega
    rw [intToBase36, if_pos hlt]
    rw [String.length_append]
    have habs : ((r : Int) - 2 ^ 32).natAbs < 36 ^ 6 := by
      have he : ((r : Int) - 2 ^ 32).natAbs = 2 ^ 32 - r := by omega
      rw [he]
      have h231 : (2:ℕ) ^ 31 < 36 ^ 6 := by norm_num
      omega
    have hle := toBase36_length_le _ habs
    have hpos := toBase36_length_pos ((r : Int) - 2 ^ 32).natAbs
    have hone : ("-" : String).length = 1 := rfl
    omega

/-- C2 counterexample: the slug for title Hello World and random draw 0
is hello-world-0, whose random suffix has length 1, not the fixed six
characters the claim states. -/
theorem slug_suffix_counterexample :
    genSlug "Hello World" 0 = "hello-world-0" ∧
    genSlug "Hello World" 0 = slugify "Hello World" ++ "-" ++ randSuffix 0 ∧
    (randSuffix 0).length = 1 ∧ (randSuffix 0).length ≠ 6 := by
  refine ⟨?_, rfl, ?_, ?_⟩ <;> decide

/-- C2 amended: every generated slug is the lower-cased hyphenated title,
a hyphen, and the base-36 rendering of the 32-bit truncation of the
random draw; the suffix has between one and seven characters (it is not
fixed-length and not padded), and distinct draws for the same title give
distinct slugs. -/
theorem slug_scheme (title : String) (r₁ r₂ : Nat)
    (h₁ : r₁ < 36 ^ 6) (h₂ : r₂ < 36 ^ 6) :
    genSlug title r₁ = slugify title ++ "-" ++ randSuffix r₁ ∧
    1 ≤ (randSuffix r₁).length ∧ (randSuffix r₁).length ≤ 7 ∧
    (genSlug title r₁ = genSlug title r₂ → r₁ = r₂) := by
  refine ⟨rfl, (randSuffix_length h₁).1, (randSuffix_length h₁).2, ?_⟩
  intro heq
  have hsuf : randSuffix r₁ = randSuffix r₂ := by
    have hd := congrArg String.data heq
    simp only [genSlug, String.data_append] at hd
    exact String.ext (List.append_cancel_left hd)
  have hi : toInt32 r₁ = toInt32 r₂ := intToBase36_inj hsuf
  have h36 : (36:ℕ) ^ 6 < 2 ^ 32 := by norm_num
  exact toInt32_inj (by omega) (by omega) hi

/-- Witness for C2 amended at a concrete title and two concrete draws. -/
theorem slug_scheme_witness :
    genSlug "Hi" 0 = slugify "Hi" ++ "-" ++ randSuffix 0 ∧
    1 ≤ (randSuffix 0).length ∧ (randSuffix 0).length ≤ 7 ∧
    (genSlug "Hi" 0 = genSlug "Hi" 35 → 0 = 35) :=
  slug_scheme "Hi" 0 35 (by norm_num) (by norm_num)
